import Mathlib

/-!
Shallow embedding of the AI-insight generation and refresh workflow of the
"SENSAI" repository (src/lib/inngest/functions.js, src/actions/interview.js,
src/lib/checkUser.js), together with proofs settling the frozen claims about
its natural-language specification.

JavaScript strings are modelled by Lean `String`, millisecond timestamps by
`Nat`, thrown JS `Error` objects by `JsError`, and promise rejection by
`Except JsError`.  Host primitives that the code consumes as opaque
capabilities (the generative-AI client, `JSON.parse`, `Math.random`) are
modelled as explicit environment parameters; everything else is translated
directly from the source.
-/

namespace Sensai

/-- A thrown JavaScript `Error`: its `message`, and the optional `code`
property that Prisma errors carry (`P2002` for unique-constraint violations). -/
structure JsError where
  message : String
  code : Option String := none
deriving Repr, DecidableEq

/- ---------------------------------------------------------------------
String helpers mirroring the JS string primitives the code uses
(`toLowerCase`, `toUpperCase`, `trim`, `startsWith`, `endsWith`,
substring containment via `includes`, `charAt(0)` case mapping).
--------------------------------------------------------------------- -/

/-- JS `hay.includes(needle)` restricted to a character-list prefix test:
does `needle` lead the list `hay`? -/
def leadsWith : List Char → List Char → Bool
  | [], _ => true
  | _ :: _, [] => false
  | a :: as, b :: bs => a == b && leadsWith as bs

/-- JS `hay.includes(needle)`: substring containment. -/
def containsChars (needle : List Char) : List Char → Bool
  | [] => leadsWith needle []
  | c :: cs => leadsWith needle (c :: cs) || containsChars needle cs

/-- JS `String.prototype.includes` on `String`. -/
def strIncludes (hay needle : String) : Bool :=
  containsChars needle.data hay.data

/-- JS `toLowerCase` (ASCII-faithful). -/
def strLower (s : String) : String :=
  String.mk (s.data.map Char.toLower)

/-- JS `toUpperCase` (ASCII-faithful). -/
def strUpper (s : String) : String :=
  String.mk (s.data.map Char.toUpper)

/-- JS `String.prototype.trim`: strip leading and trailing whitespace. -/
def trimChars (s : String) : String :=
  String.mk (((s.data.dropWhile Char.isWhitespace).reverse.dropWhile Char.isWhitespace).reverse)

/-- JS `s.startsWith(v)` on `String`. -/
def strLeads (s v : String) : Bool :=
  leadsWith v.data s.data

/-- JS `s.endsWith(c)` for a one-character suffix. -/
def endsWithChar (s : String) (c : Char) : Bool :=
  s.data.getLast? == some c

/-- JS `s.charAt(0).toLowerCase() + s.slice(1)`. -/
def lowerFirst (s : String) : String :=
  match s.data with
  | [] => ""
  | c :: cs => String.mk (Char.toLower c :: cs)

/-- JS `s.charAt(0).toUpperCase() + s.slice(1)`. -/
def upperFirst (s : String) : String :=
  match s.data with
  | [] => ""
  | c :: cs => String.mk (Char.toUpper c :: cs)

/- ---------------------------------------------------------------------
Code-fence stripping: `text.replace(/```(?:json)?\n?/g, "").trim()`
(functions.js line 69 and the analogous lines in the other call sites).
--------------------------------------------------------------------- -/

/-- Global, left-to-right, greedy application of the regex
\x60\x60\x60(?:json)?\n? with empty replacement: at each position, a literal
triple backtick, optionally followed by `json`, optionally followed by a
newline, is removed. -/
def stripFencesAux : List Char → List Char
  | '\x60' :: '\x60' :: '\x60' :: 'j' :: 's' :: 'o' :: 'n' :: '\n' :: rest => stripFencesAux rest
  | '\x60' :: '\x60' :: '\x60' :: 'j' :: 's' :: 'o' :: 'n' :: rest => stripFencesAux rest
  | '\x60' :: '\x60' :: '\x60' :: '\n' :: rest => stripFencesAux rest
  | '\x60' :: '\x60' :: '\x60' :: rest => stripFencesAux rest
  | c :: rest => c :: stripFencesAux rest
  | [] => []

/-- JS `String(text).replace(/\x60\x60\x60(?:json)?\n?/g, "").trim()`. -/
def cleanText (s : String) : String :=
  trimChars (String.mk (stripFencesAux s.data))

/- ---------------------------------------------------------------------
Retry policy: `retryWithBackoff` (src/actions/interview.js lines 11-44;
the copy in the resume actions file lines 253-285 is identical apart from
its log text and its `maxJitterMs` default).
--------------------------------------------------------------------- -/

/-- The retryability test (interview.js lines 18-24): the lowercased error
message contains one of the transient-failure tokens. -/
def isRetryableMsg (msg : String) : Bool :=
  let m := strLower msg
  strIncludes m "503" || strIncludes m "overloaded" || strIncludes m "429" ||
    strIncludes m "timeout" || strIncludes m "service unavailable"

/-- Observable trace of one `retryWithBackoff` run: the settled result, the
delays awaited (the `setTimeout` calls, in order), and how many times the
wrapped operation was invoked. -/
structure RetryTrace (α : Type) where
  result : Except JsError α
  delays : List Nat
  calls : Nat
deriving Repr

/-- The `throw lastError` after the loop is reachable only when
`maxRetries = 0`, in which case `lastError` is still `undefined`. -/
def undefinedThrown : JsError := { message := "undefined" }

/-- The `for (let attempt = 0; attempt < maxRetries; attempt++)` loop of
`retryWithBackoff`, with `fuel = maxRetries - attempt` remaining iterations.
`fn` is the wrapped operation as an oracle indexed by attempt number, and
`jitterAt i` models `Math.floor(Math.random() * maxJitterMs)` computed before
the delay that follows attempt `i`. -/
def retryAux {α : Type} (fn : Nat → Except JsError α) (jitterAt : Nat → Nat)
    (initialDelayMs : Nat) (attempt : Nat) : Nat → RetryTrace α
  | 0 => { result := .error undefinedThrown, delays := [], calls := 0 }
  | fuel + 1 =>
    match fn attempt with
    | .ok v => { result := .ok v, delays := [], calls := 1 }
    | .error e =>
      if !isRetryableMsg e.message || fuel == 0 then
        { result := .error e, delays := [], calls := 1 }
      else
        let baseDelay := initialDelayMs * 2 ^ attempt
        let delayMs := baseDelay + jitterAt attempt
        let rest := retryAux fn jitterAt initialDelayMs (attempt + 1) fuel
        { result := rest.result, delays := delayMs :: rest.delays, calls := rest.calls + 1 }

/-- Embedding of `retryWithBackoff(fn, maxRetries, initialDelayMs, maxJitterMs)`
(interview.js lines 11-44).  `maxJitterMs` only bounds the values the
`jitterAt` stream may take, which is stated as a hypothesis where needed. -/
def retryWithBackoff {α : Type} (fn : Nat → Except JsError α) (jitterAt : Nat → Nat)
    (maxRetries initialDelayMs : Nat) : RetryTrace α :=
  retryAux fn jitterAt initialDelayMs 0 maxRetries

/- ---------------------------------------------------------------------
Data model (spec section 3, Prisma schema referenced by the code).
JS numbers appearing in payloads are modelled as `Int`; no claim computes
with their values.
--------------------------------------------------------------------- -/

/-- One entry of `salaryRanges`. -/
structure SalaryRange where
  role : String
  min : Int
  max : Int
  median : Int
  location : String
deriving Repr, DecidableEq

/-- The raw result of `JSON.parse` on the cleaned AI text, in the shape the
prompt requests.  `demandLevel` / `marketOutlook` are `Option` because the
code guards them (`if (insights.demandLevel)`, `insights.demandLevel?.`)
against the key being absent. -/
structure Insights where
  salaryRanges : List SalaryRange
  growthRate : Int
  demandLevel : Option String
  marketOutlook : Option String
  topSkills : List String
  keyTrends : List String
  recommendedSkills : List String
deriving Repr, DecidableEq

/-- The payload returned by `generateAIInsights` after its normalization
lines (dashboard file lines 471-472): both enum fields are definite strings. -/
structure NormInsights where
  salaryRanges : List SalaryRange
  growthRate : Int
  demandLevel : String
  marketOutlook : String
  topSkills : List String
  keyTrends : List String
  recommendedSkills : List String
deriving Repr, DecidableEq

/-- A stored `IndustryInsight` row.  Timestamps are epoch milliseconds. -/
structure InsightRecord where
  industry : String
  salaryRanges : List SalaryRange
  growthRate : Int
  demandLevel : String
  marketOutlook : String
  topSkills : List String
  keyTrends : List String
  recommendedSkills : List String
  lastUpdated : Nat
  nextUpdate : Nat
deriving Repr, DecidableEq

/-- Exactly `7 * 24 * 60 * 60 * 1000` milliseconds, the `nextUpdate` horizon. -/
def sevenDaysMs : Nat := 7 * 24 * 60 * 60 * 1000

/- ---------------------------------------------------------------------
AI response shapes and the text extractor
(functions.js lines 50-67, interview.js lines 88-105).
--------------------------------------------------------------------- -/

/-- The response shapes the extractor distinguishes, after the
`res?.response ?? res` unwrapping. -/
inductive AIResponse where
  /-- `response.text` is a callable returning `s`. -/
  | textFn (s : String)
  /-- `candidates[0].content.parts[0].text = s`. -/
  | candidatesParts (s : String)
  /-- `candidates[0].content.text = s`, no `parts[0].text`. -/
  | candidatesContentText (s : String)
  /-- `candidates[0]` exists but neither nested text path does: both `??`
  fallbacks fire and the text defaults to the empty string. -/
  | candidatesBlank
  /-- no candidates, `response.output.text = s`. -/
  | outputText (s : String)
  /-- none of the known shapes; `serialized` is `JSON.stringify(response)`. -/
  | opaqueObj (serialized : String)
deriving Repr, DecidableEq

/-- The four extraction strategies applied to a present response
(functions.js lines 57-67): callable `.text()`, the two candidate paths
(empty string when both nested paths are missing), `output.text`, and
`JSON.stringify` of the whole object. -/
def extractShapes : AIResponse → String
  | .textFn s => s
  | .candidatesParts s => s
  | .candidatesContentText s => s
  | .candidatesBlank => ""
  | .outputText s => s
  | .opaqueObj ser => ser

/-- The shared extractor block (functions.js lines 53-67): `none` models a
null/undefined response, which raises `"No response from AI model"`; every
present shape yields a string via `extractShapes`. -/
def extractAIText : Option AIResponse → Except JsError String
  | none => .error { message := "No response from AI model" }
  | some r => .ok (extractShapes r)

/-- JS `String(x)` on a plain (non-string, non-callable-text) response
object: the default object-to-string conversion. -/
def jsStringOfResponse : AIResponse → String := fun _ => "[object Object]"

/-- The narrower extraction of `generateAIInsights` (dashboard file line 465):
`typeof response.text === "function" ? response.text() : String(response)`. -/
def extractTextOnDemand : AIResponse → String
  | .textFn s => s
  | r => jsStringOfResponse r

/-- The extraction block of `improveWithAI` (lines 410-418): as
`extractAIText` on present shapes except that the final fallback is
`String(resp)` rather than `JSON.stringify(response)`. -/
def extractTextResume : AIResponse → String
  | .textFn s => s
  | .candidatesParts s => s
  | .candidatesContentText s => s
  | .candidatesBlank => ""
  | .outputText s => s
  | r => jsStringOfResponse r

/- ---------------------------------------------------------------------
Prompts (template literals, reproduced verbatim; \x7b and \x7d denote the
literal braces of the requested JSON shape).
--------------------------------------------------------------------- -/

/-- The prompt template of the scheduled job (functions.js lines 19-38). -/
def insightPromptJob (industry : String) : String :=
  "\n          Analyze the current state of the " ++ industry ++
  " industry and provide insights in ONLY the following JSON format without any additional notes or explanations:\n" ++
  "          \x7b\n" ++
  "            \"salaryRanges\": [\n" ++
  "              \x7b \"role\": \"string\", \"min\": number, \"max\": number, \"median\": number, \"location\": \"string\" \x7d\n" ++
  "            ],\n" ++
  "            \"growthRate\": number,\n" ++
  "            \"demandLevel\": \"HIGH\" | \"MEDIUM\" | \"LOW\",\n" ++
  "            \"topSkills\": [\"skill1\", \"skill2\"],\n" ++
  "            \"marketOutlook\": \"POSITIVE\" | \"NEUTRAL\" | \"NEGATIVE\",\n" ++
  "            \"keyTrends\": [\"trend1\", \"trend2\"],\n" ++
  "            \"recommendedSkills\": [\"skill1\", \"skill2\"]\n" ++
  "          \x7d\n" ++
  "          \n" ++
  "          IMPORTANT: Return ONLY the JSON. No additional text, notes, or markdown formatting.\n" ++
  "          Use UPPERCASE values for enums (e.g. HIGH, MEDIUM, LOW).\n" ++
  "          Include at least 5 common roles for salary ranges.\n" ++
  "          Growth rate should be a percentage.\n" ++
  "          Include at least 5 skills and trends.\n" ++
  "        "

/-- The prompt template of `generateAIInsights` (dashboard file lines
443-461); identical to the job prompt except it lacks the UPPERCASE line. -/
def insightPromptOnDemand (industry : String) : String :=
  "\n          Analyze the current state of the " ++ industry ++
  " industry and provide insights in ONLY the following JSON format without any additional notes or explanations:\n" ++
  "          \x7b\n" ++
  "            \"salaryRanges\": [\n" ++
  "              \x7b \"role\": \"string\", \"min\": number, \"max\": number, \"median\": number, \"location\": \"string\" \x7d\n" ++
  "            ],\n" ++
  "            \"growthRate\": number,\n" ++
  "            \"demandLevel\": \"HIGH\" | \"MEDIUM\" | \"LOW\",\n" ++
  "            \"topSkills\": [\"skill1\", \"skill2\"],\n" ++
  "            \"marketOutlook\": \"POSITIVE\" | \"NEUTRAL\" | \"NEGATIVE\",\n" ++
  "            \"keyTrends\": [\"trend1\", \"trend2\"],\n" ++
  "            \"recommendedSkills\": [\"skill1\", \"skill2\"]\n" ++
  "          \x7d\n" ++
  "          \n" ++
  "          IMPORTANT: Return ONLY the JSON. No additional text, notes, or markdown formatting.\n" ++
  "          Include at least 5 common roles for salary ranges.\n" ++
  "          Growth rate should be a percentage.\n" ++
  "          Include at least 5 skills and trends.\n" ++
  "        "

/- ---------------------------------------------------------------------
On-demand insight generation: `generateAIInsights`
(dashboard file lines 442-475).
--------------------------------------------------------------------- -/

/-- JS `result.response` read on a null result (dashboard file line 464 has no
optional chaining, so a null resolution raises a TypeError). -/
def typeErrorNullResponse : JsError :=
  { message := "Cannot read properties of null (reading \x27response\x27)" }

/-- The `SyntaxError` thrown by the host `JSON.parse` on unparseable text;
its exact host-dependent message is irrelevant to every claim. -/
def jsonSyntaxError : JsError := { message := "Unexpected token in JSON" }

/-- JS `insights.demandLevel?.toUpperCase() || dflt` (dashboard file lines
471-472): absent key, or a value whose uppercase form is the falsy empty
string, yields the default. -/
def onDemandNormEnum (v : Option String) (dflt : String) : String :=
  match v with
  | none => dflt
  | some s => if strUpper s == "" then dflt else strUpper s

/-- Environment capabilities consumed by `generateAIInsights`:
`generateContent k p` is the result of the `k`-th invocation of the model on
prompt `p` (`none` models a null resolution), and `parseJson` is the host
`JSON.parse` restricted to the requested payload shape. -/
structure GenEnv where
  generateContent : Nat → String → Except JsError (Option AIResponse)
  parseJson : String → Option Insights

/-- Embedding of `generateAIInsights(industry)` (dashboard file lines 442-475).  Returns
the settled result together with the number of AI invocations performed; the
source awaits `getGenerativeModel().then((m) => m.generateContent(prompt))`
exactly once, with no retry wrapper around it. -/
def generateAIInsights (env : GenEnv) (industry : String) :
    Except JsError NormInsights × Nat :=
  let prompt := insightPromptOnDemand industry
  match env.generateContent 0 prompt with
  | .error e => (.error e, 1)
  | .ok none => (.error typeErrorNullResponse, 1)
  | .ok (some r) =>
    let text := extractTextOnDemand r
    let cleanedText := cleanText text
    match env.parseJson cleanedText with
    | none => (.error jsonSyntaxError, 1)
    | some ins =>
      (.ok { salaryRanges := ins.salaryRanges
             growthRate := ins.growthRate
             demandLevel := onDemandNormEnum ins.demandLevel "MEDIUM"
             marketOutlook := onDemandNormEnum ins.marketOutlook "NEUTRAL"
             topSkills := ins.topSkills
             keyTrends := ins.keyTrends
             recommendedSkills := ins.recommendedSkills }, 1)

/- ---------------------------------------------------------------------
Scheduled refresh job: `generateIndustryInsights`
(functions.js lines 8-101).
--------------------------------------------------------------------- -/

/-- JS `if (insights.demandLevel) insights.demandLevel = String(...).toUpperCase()`
(functions.js lines 81-82): an absent key stays absent, a falsy empty string
is left as is, anything else is uppercased. -/
def jobNormEnum : Option String → Option String
  | none => none
  | some s => if s == "" then some s else some (strUpper s)

/-- The Prisma P2025 error raised by `update` when no row matches `where`. -/
def prismaUpdateNotFound : JsError := { message := "Record to update not found." }

/-- The `db.industryInsight.update` data object of the job (functions.js
lines 85-92): the spread of the parsed payload (enum keys that are absent
leave the stored column unchanged) plus fresh `lastUpdated` / `nextUpdate`. -/
def applyUpdate (r : InsightRecord) (ins : Insights) (now : Nat) : InsightRecord :=
  { industry := r.industry
    salaryRanges := ins.salaryRanges
    growthRate := ins.growthRate
    demandLevel := (jobNormEnum ins.demandLevel).getD r.demandLevel
    marketOutlook := (jobNormEnum ins.marketOutlook).getD r.marketOutlook
    topSkills := ins.topSkills
    keyTrends := ins.keyTrends
    recommendedSkills := ins.recommendedSkills
    lastUpdated := now
    nextUpdate := now + sevenDaysMs }

/-- Embedding of `db.industryInsight.update({ where: { industry }, data: ... })` over the
modelled table: errors with P2025 when the row is absent. -/
def updateInsight (db : List InsightRecord) (industry : String) (ins : Insights)
    (now : Nat) : Except JsError (List InsightRecord) :=
  if db.any (fun r => r.industry == industry) then
    .ok (db.map fun r => if r.industry == industry then applyUpdate r ins now else r)
  else
    .error prismaUpdateNotFound

/-- Environment capabilities of the scheduled job: `stepAiWrap p` is the
settled value of `step.ai.wrap("gemini", ..., p)` after the
`res?.response ?? res` unwrapping (`none` models a null/undefined
resolution), and `parseJson` is the host `JSON.parse`. -/
structure JobEnv where
  stepAiWrap : String → Except JsError (Option AIResponse)
  parseJson : String → Option Insights

/-- The body of the per-industry `try` block of the job (functions.js lines
40-93): AI call, extraction, fence cleanup, JSON parse, row update.  Any
`.error` it returns is caught by the source `catch`/parse-`continue` and
makes the job skip the industry. -/
def processIndustry (env : JobEnv) (db : List InsightRecord) (now : Nat)
    (industry : String) : Except JsError (List InsightRecord) :=
  match env.stepAiWrap (insightPromptJob industry) with
  | .error e => .error e
  | .ok res =>
    match extractAIText res with
    | .error e => .error e
    | .ok text =>
      match env.parseJson (cleanText text) with
      | none => .error jsonSyntaxError
      | some ins => updateInsight db industry ins now

/-- The whole scheduled job (functions.js lines 8-101): fetch the industries
that currently have a row, then process each in order, skipping any industry
whose processing raises (`continue` on parse failure, outer `catch` with
`continue` on anything else), so the job itself always settles successfully. -/
def runJob (env : JobEnv) (db : List InsightRecord) (now : Nat) :
    Except JsError (List InsightRecord) :=
  .ok ((db.map fun r => r.industry).foldl
    (fun acc industry =>
      match processIndustry env acc now industry with
      | .ok db' => db'
      | .error _ => acc)
    db)

/- ---------------------------------------------------------------------
On-Demand Insight Resolver: `getIndustryInsights`
(dashboard file lines 477-510).
--------------------------------------------------------------------- -/

/-- JS template interpolation of a value that may be the database `null`:
`${null}` renders as `"null"`. -/
def jsTemplateOptStr : Option String → String
  | none => "null"
  | some s => s

/-- JS template interpolation of a value that may be `undefined`:
`${undefined}` renders as `"undefined"`. -/
def jsTemplateUndef : Option String → String
  | none => "undefined"
  | some s => s

/-- A Prisma unique-constraint violation. -/
def p2002 (fields : String) : JsError :=
  { message := "Unique constraint failed on the fields: (" ++ fields ++ ")",
    code := some "P2002" }

/-- The `industryInsight.create` data object of the two on-demand paths
(dashboard file lines 498-504, user-actions file lines 173-179):
`\x7b industry, ...insights, nextUpdate: now + 7 days \x7d`.
Modelled from the spec: the Prisma schema file is not under src/.  Per spec
section 3, `lastUpdated` is a timestamp "set on every successful
regeneration" and `nextUpdate` is "creation/update time + 7 days", so the
schema default fills `lastUpdated` with the creation instant `now`. -/
def createRecord (industry : String) (v : NormInsights) (now : Nat) : InsightRecord :=
  { industry := industry
    salaryRanges := v.salaryRanges
    growthRate := v.growthRate
    demandLevel := v.demandLevel
    marketOutlook := v.marketOutlook
    topSkills := v.topSkills
    keyTrends := v.keyTrends
    recommendedSkills := v.recommendedSkills
    lastUpdated := now
    nextUpdate := now + sevenDaysMs }

/-- A user row as read with `include: \x7b industryInsight: true \x7d`. -/
structure UserView where
  industry : Option String
  industryInsight : Option InsightRecord
deriving Repr

/-- Environment of `getIndustryInsights`.  `createInsight` is the
`db.industryInsight.create` call on the built data record: it settles with
the created row, or rejects — in particular with a P2002 unique-constraint
error when a concurrent request created the row for the same industry between the read and the
write of this request. -/
structure DashEnv where
  auth : Option String
  findUser : String → Option UserView
  gen : GenEnv
  createInsight : InsightRecord → Except JsError InsightRecord
  now : Nat

/-- Embedding of `getIndustryInsights()` (dashboard file lines 477-510).  Note the
`db.industryInsight.create` call has no catch around it: any storage
rejection, including the uniqueness race, propagates to the caller. -/
def getIndustryInsights (env : DashEnv) : Except JsError InsightRecord :=
  match env.auth with
  | none => .error { message := "Unauthorized" }
  | some userId =>
    match env.findUser userId with
    | none => .error { message := "User not found" }
    | some user =>
      match user.industry with
      | none => .error { message := "User industry is not set. Please update your profile first." }
      | some industry =>
        match user.industryInsight with
        | some r => .ok r
        | none =>
          match (generateAIInsights env.gen industry).1 with
          | .error e => .error e
          | .ok v => env.createInsight (createRecord industry v env.now)

/- ---------------------------------------------------------------------
Profile update path: `updateUser` (user-actions file lines 108-208).
--------------------------------------------------------------------- -/

/-- A `User` table row. -/
structure UserRec where
  id : String
  clerkUserId : String
  name : Option String
  email : Option String
  imageUrl : Option String
  industry : Option String
  experience : Option Int
  bio : Option String
  skills : List String
deriving Repr, DecidableEq

/-- The relational state `updateUser` touches. -/
structure Db where
  users : List UserRec
  insights : List InsightRecord
deriving Repr, DecidableEq

/-- The `data` argument of `updateUser`. -/
structure UpdateData where
  industry : Option String
  experience : Option Int
  bio : Option String
  skills : List String
deriving Repr, DecidableEq

/-- The `currentUser()` payload of the identity provider. -/
structure ClerkUser where
  firstName : String
  lastName : String
  emailAddresses : List String
  imageUrl : Option String
deriving Repr

/-- Environment of `updateUser`: the session user id, the identity
provider, the AI capabilities, and the clock. -/
structure UpdateEnv where
  auth : Option String
  currentUser : Option ClerkUser
  gen : GenEnv
  now : Nat

/-- Embedding of `db.user.create` over the modelled table: rejects with P2002 when a row
with the same `clerkUserId` already exists (the cross-request race of spec
section 5(b) shows up here as a pre-existing row).  The generated primary
key is modelled deterministically. -/
def createUser (db : Db) (u : UserRec) : Except JsError (Db × UserRec) :=
  if db.users.any (fun w => w.clerkUserId == u.clerkUserId) then
    .error (p2002 "`clerkUserId`")
  else
    .ok ({ db with users := db.users ++ [u] }, u)

/-- The ensure-user-exists preamble of `updateUser` (user-actions file lines
117-157): find by `clerkUserId`; if absent, create from the identity
provider data, treating a P2002 rejection as "another request created it"
and re-fetching. -/
def findOrCreateUser (env : UpdateEnv) (db : Db) (userId : String) :
    Except JsError (Db × UserRec) :=
  match db.users.find? (fun w => w.clerkUserId == userId) with
  | some u => .ok (db, u)
  | none =>
    match env.currentUser with
    | none => .error { message := "User not authenticated" }
    | some clerkUser =>
      let name := clerkUser.firstName ++ " " ++ clerkUser.lastName
      let email := clerkUser.emailAddresses.head?
      let newUser : UserRec :=
        { id := "user-" ++ userId, clerkUserId := userId, name := some name,
          email := email, imageUrl := clerkUser.imageUrl, industry := none,
          experience := none, bio := none, skills := [] }
      match createUser db newUser with
      | .ok (db1, u) => .ok (db1, u)
      | .error createError =>
        if createError.code == some "P2002" then
          match db.users.find? (fun w => w.clerkUserId == userId) with
          | some u => .ok (db, u)
          | none => .error { message := "Failed to create or find user" }
        else
          .error createError

/-- Embedding of `tx.user.update(\x7b where: \x7b id \x7d, data: \x7b industry,
experience, bio, skills \x7d \x7d)`: P2025 when the row is gone, else
overwrite the four profile fields. -/
def updateUserRow (db : Db) (userIdKey : String) (data : UpdateData) :
    Except JsError (Db × UserRec) :=
  match db.users.find? (fun w => w.id == userIdKey) with
  | none => .error { message := "Record to update not found.", code := some "P2025" }
  | some w =>
    let w' := { w with
      industry := data.industry
      experience := data.experience
      bio := UpdateData.bio data
      skills := data.skills }
    .ok ({ db with users := db.users.map fun x => if x.id == userIdKey then w' else x }, w')

/-- The transaction timeout `updateUser` configures (user-actions file line
198; the Prisma default would be 5000). -/
def updateUserTimeoutMs : Nat := 10000

/-- Embedding of `db.$transaction(body, \x7b timeout \x7d)`: run the body on the current
state; commit its state on success, roll back to the entry state on any
rejection.  The timeout is wall-clock behaviour of the external store and
does not alter the state semantics. -/
def runTransaction {α : Type} (_timeoutMs : Nat) (db : Db)
    (body : Db → Except JsError (Db × α)) : Except JsError α × Db :=
  match body db with
  | .ok (db', a) => (.ok a, db')
  | .error e => (.error e, db)

/-- The transaction body of `updateUser` (user-actions file lines 161-196):
read the insight row of the industry, generate-and-create it when absent, then
overwrite the profile fields of the user. -/
def txBodyUpdateUser (env : UpdateEnv) (data : UpdateData) (user : UserRec)
    (db : Db) : Except JsError (Db × (UserRec × InsightRecord)) :=
  let industryStr := data.industry.getD ""
  match db.insights.find? (fun r => r.industry == industryStr) with
  | some existing =>
    match updateUserRow db user.id data with
    | .error e => .error e
    | .ok (db1, u') => .ok (db1, (u', existing))
  | none =>
    match (generateAIInsights env.gen industryStr).1 with
    | .error e => .error e
    | .ok v =>
      let created := createRecord industryStr v env.now
      if db.insights.any (fun r => r.industry == industryStr) then
        .error (p2002 "`industry`")
      else
        let db1 := { db with insights := db.insights ++ [created] }
        match updateUserRow db1 user.id data with
        | .error e => .error e
        | .ok (db2, u') => .ok (db2, (u', created))

/-- The success payload of `updateUser`
(`\x7b success: true, updatedUser, industryInsight \x7d`). -/
structure UpdateResult where
  success : Bool
  updatedUser : UserRec
  industryInsight : InsightRecord
deriving Repr, DecidableEq

/-- Embedding of `updateUser(data)` (user-actions file lines 108-208), returning the
settled result together with the final relational state.  Every rejection
inside the `try` is rewrapped by the `catch` as
`"Failed to update profile: " + message`; a transaction rejection leaves the
state as it was when the transaction began. -/
def updateUser (env : UpdateEnv) (db : Db) (data : UpdateData) :
    Except JsError UpdateResult × Db :=
  match env.auth with
  | none => (.error { message := "Unauthorized" }, db)
  | some userId =>
    if data.industry.isNone || trimChars (data.industry.getD "") == "" then
      (.error { message := "Industry is required before updating the user." }, db)
    else
      match findOrCreateUser env db userId with
      | .error e => (.error { message := "Failed to update profile: " ++ e.message }, db)
      | .ok (db1, user) =>
        match runTransaction updateUserTimeoutMs db1 (txBodyUpdateUser env data user) with
        | (.ok (u', ins), db2) =>
          (.ok { success := true, updatedUser := u', industryInsight := ins }, db2)
        | (.error e, db2) =>
          (.error { message := "Failed to update profile: " ++ e.message }, db2)

/- ---------------------------------------------------------------------
Onboarding status read: `getUserOnboardingStatus`
(user-actions file lines 210-239).
--------------------------------------------------------------------- -/

/-- The result shape `\x7b isOnboarded \x7d`. -/
structure OnboardStatus where
  isOnboarded : Bool
deriving Repr, DecidableEq

/-- Environment of `getUserOnboardingStatus`.  `findUserIndustry uid` is the
`db.user.findUnique(select industry)` call: a rejection models a storage
failure, `ok none` no such user, `ok (some ind)` the (nullable)
industry of the user. -/
structure OnboardEnv where
  auth : Option String
  findUserIndustry : String → Except JsError (Option (Option String))

/-- Embedding of `getUserOnboardingStatus()` (user-actions file lines 210-239).  The
`catch` turns ANY rejection of the lookup — including a plain storage
failure — into the normal-looking success `\x7b isOnboarded: false \x7d`. -/
def getUserOnboardingStatus (env : OnboardEnv) : Except JsError OnboardStatus :=
  match env.auth with
  | none => .error { message := "Unauthorized" }
  | some userId =>
    match env.findUserIndustry userId with
    | .error _ => .ok { isOnboarded := false }
    | .ok none => .ok { isOnboarded := false }
    | .ok (some industryOpt) =>
      .ok { isOnboarded := industryOpt.isSome && !(industryOpt.getD "").isEmpty }

/- ---------------------------------------------------------------------
Quiz result persistence: `saveQuizResult`
(src/actions/interview.js lines 132-224).
--------------------------------------------------------------------- -/

/-- One generated quiz question. -/
structure Question where
  question : String
  options : List String
  correctAnswer : String
  explanation : String
deriving Repr, DecidableEq

/-- One element of the `questionResults` array (interview.js lines 144-150). -/
structure QuestionResult where
  question : String
  answer : String
  userAnswer : Option String
  isCorrect : Bool
  explanation : String
deriving Repr, DecidableEq

/-- JS `questions.map((q, index) => ...)` (interview.js lines 144-150):
`answers[index]` is `undefined` past the end of `answers`, and strict
equality against `undefined` is false. -/
def questionResults (questions : List Question) (answers : List String) :
    List QuestionResult :=
  questions.enum.map fun p =>
    { question := p.2.question
      answer := p.2.correctAnswer
      userAnswer := answers.get? p.1
      isCorrect := answers.get? p.1 == some p.2.correctAnswer
      explanation := p.2.explanation }

/-- The `wrongQuestionsText` template join (interview.js lines 161-166). -/
def wrongQuestionsText (wrong : List QuestionResult) : String :=
  String.intercalate "\n\n" (wrong.map fun q =>
    "Question: \"" ++ q.question ++ "\"\nCorrect Answer: \"" ++ q.answer ++
      "\"\nUser Answer: \"" ++ jsTemplateUndef q.userAnswer ++ "\"")

/-- The improvement-tip prompt template (interview.js lines 168-177). -/
def improvementPrompt (industry wrongText : String) : String :=
  "\n      The user got the following " ++ industry ++
  " technical interview questions wrong:\n\n      " ++ wrongText ++
  "\n\n      Based on these mistakes, provide a concise, specific improvement tip.\n" ++
  "      Focus on the knowledge gaps revealed by these wrong answers.\n" ++
  "      Keep the response under 2 sentences and make it encouraging.\n" ++
  "      Don\x27t explicitly mention the mistakes, instead focus on what to learn/practice.\n    "

/-- The `db.assessment.create` data object (interview.js lines 208-216). -/
structure AssessmentData where
  userId : String
  quizScore : Int
  questions : List QuestionResult
  category : String
  improvementTip : Option String
deriving Repr, DecidableEq

/-- Environment of `saveQuizResult`: session, user lookup, the
attempt-indexed improvement-tip AI oracle with its jitter stream, and the
assessment store. -/
structure SaveQuizEnv where
  auth : Option String
  findUser : String → Option UserRec
  tipAi : Nat → String → Except JsError (Option AIResponse)
  jitterAt : Nat → Nat
  createAssessment : AssessmentData → Except JsError AssessmentData

/-- Embedding of `saveQuizResult(questions, answers, score)` (interview.js lines
132-224).  The secondary improvement-tip call runs under
`retryWithBackoff(..., 5, 1000, 1200)` and its failure is swallowed (the
tip stays null); a failure of `db.assessment.create` is rethrown as
`"Failed to save quiz result: " + message`. -/
def saveQuizResult (env : SaveQuizEnv) (questions : List Question)
    (answers : List String) (score : Int) : Except JsError AssessmentData :=
  match env.auth with
  | none => .error { message := "Unauthorized" }
  | some userId =>
    match env.findUser userId with
    | none => .error { message := "User not found" }
    | some user =>
      let results := questionResults questions answers
      let wrong := results.filter fun q => !q.isCorrect
      let tip : Option String :=
        if wrong.length > 0 then
          let prompt := improvementPrompt (jsTemplateOptStr user.industry)
            (wrongQuestionsText wrong)
          match (retryWithBackoff (fun k => env.tipAi k prompt) env.jitterAt 5 1000).result with
          | .error _ => none
          | .ok respOpt =>
            some (cleanText (match respOpt with
              | none => ""
              | some r => extractShapes r))
        else none
      let assessmentData : AssessmentData :=
        { userId := user.id
          quizScore := score
          questions := results
          category := "Technical"
          improvementTip := tip }
      match env.createAssessment assessmentData with
      | .ok assessment => .ok assessment
      | .error e => .error { message := "Failed to save quiz result: " ++ e.message }

/- ---------------------------------------------------------------------
Resume improvement: `polishContentLocally` and `improveWithAI`
(resume actions file lines 288-321 and 372-431).
--------------------------------------------------------------------- -/

/-- The `actionVerbs` array (lines 290-295), duplicate `"Optimized"`
included. -/
def actionVerbs : List String :=
  ["Achieved", "Accelerated", "Built", "Created", "Delivered", "Designed",
   "Developed", "Drove", "Enabled", "Enhanced", "Engineered", "Expanded",
   "Implemented", "Improved", "Increased", "Innovated", "Optimized", "Orchestrated",
   "Pioneered", "Scaled", "Streamlined", "Transformed", "Optimized"]

/-- The alternatives of the `startsWithVerb` regex (line 306). -/
def verbPattern : List String :=
  ["achieved", "accelerated", "built", "created", "delivered", "designed",
   "developed", "drove", "enabled", "enhanced", "engineered", "expanded",
   "implemented", "improved", "increased", "innovated", "optimized", "orchestrated",
   "pioneered", "scaled", "streamlined", "transformed"]

/-- Case-insensitive match of the word `w` at the head of `cs`, returning
the remainder. -/
def matchWordCI : List Char → List Char → Option (List Char)
  | [], rest => some rest
  | _ :: _, [] => none
  | w :: ws, c :: cs => if w.toLower == c.toLower then matchWordCI ws cs else none

/-- One `improved.replace(/^word\s+/i, "")` step (lines 300-303): when the
word leads the string, case-insensitively, and is followed by at least one
whitespace character, drop the word and the whole greedy whitespace run. -/
def dropPassiveWord (w : String) (s : String) : String :=
  match matchWordCI w.data s.data with
  | none => s
  | some rest =>
    match rest with
    | [] => s
    | c :: _ =>
      if c.isWhitespace then String.mk (rest.dropWhile Char.isWhitespace) else s

/-- Embedding of `polishContentLocally(content, type)` (lines 288-321).  `randIdx` models
`Math.floor(Math.random() * actionVerbs.length)`, the index of the verb
chosen when one must be prepended; `type` is accepted and unused, as in the
source. -/
def polishContentLocally (randIdx : Nat) (content : String) (_ty : String) : String :=
  let improved := trimChars content
  let improved := dropPassiveWord "was" improved
  let improved := dropPassiveWord "were" improved
  let improved := dropPassiveWord "is" improved
  let improved := dropPassiveWord "are" improved
  let startsWithVerb := verbPattern.any fun v => strLeads (strLower improved) v
  let improved :=
    if !startsWithVerb && improved.length > 0 then
      actionVerbs.getD randIdx "" ++ " " ++ lowerFirst improved
    else improved
  let improved :=
    if !endsWithChar improved '.' && !endsWithChar improved '!' then improved ++ "."
    else improved
  upperFirst improved

/-- A user row as read by `improveWithAI`
(`include: \x7b industryInsight: true \x7d`). -/
structure ResumeUser where
  industry : Option String
  industryInsight : Option InsightRecord
deriving Repr

/-- The resume-improvement prompt template (lines 385-399). -/
def resumePrompt (industry current ty : String) : String :=
  "\n    As an expert resume writer, improve the following " ++ ty ++
  " description for a " ++ industry ++ " professional.\n" ++
  "    Make it more impactful, quantifiable, and aligned with industry standards.\n" ++
  "    Current content: \"" ++ current ++ "\"\n\n" ++
  "    Requirements:\n" ++
  "    1. Use action verbs\n" ++
  "    2. Include metrics and results where possible\n" ++
  "    3. Highlight relevant technical skills\n" ++
  "    4. Keep it concise but detailed\n" ++
  "    5. Focus on achievements over responsibilities\n" ++
  "    6. Use industry-specific keywords\n" ++
  "    \n" ++
  "    Format the response as a single paragraph without any additional text or explanations.\n  "

/-- Environment of `improveWithAI`: session, user lookup, the
attempt-indexed AI oracle with its jitter stream, and the verb
pick of the fallback. -/
structure ResumeEnv where
  auth : Option String
  findUser : String → Option ResumeUser
  ai : Nat → String → Except JsError (Option AIResponse)
  jitterAt : Nat → Nat
  randIdx : Nat

/-- Embedding of `improveWithAI(\x7b current, type \x7d)` (lines 372-431).  The whole AI
round (retry wrapper with `(5, 1000, 1200)`, null-response check,
extraction, fence cleanup) sits in one `try`; ANY rejection of it lands in
the `catch`, which settles successfully with the local fallback
`polishContentLocally(current, type)`. -/
def improveWithAI (env : ResumeEnv) (current ty : String) : Except JsError String :=
  match env.auth with
  | none => .error { message := "Unauthorized" }
  | some userId =>
    match env.findUser userId with
    | none => .error { message := "User not found" }
    | some user =>
      let prompt := resumePrompt (jsTemplateOptStr user.industry) current ty
      let tried : Except JsError String :=
        match (retryWithBackoff (fun k => env.ai k prompt) env.jitterAt 5 1000).result with
        | .error e => .error e
        | .ok none => .error { message := "No response from AI model" }
        | .ok (some r) => .ok (cleanText (extractTextResume r))
      match tried with
      | .ok s => .ok s
      | .error _ => .ok (polishContentLocally env.randIdx current ty)

/- =====================================================================
Theorems settling the claims
===================================================================== -/

/-- Claim C8: for every operation whose failure message contains none of the
retryable tokens, the retry helper raises that error immediately after the
first attempt, performing no delay wait and no second invocation. -/
theorem c8_non_retryable_immediate {α : Type} (fn : Nat → Except JsError α)
    (jitterAt : Nat → Nat) (maxRetries initialDelayMs : Nat) (e : JsError)
    (hm : 1 ≤ maxRetries) (h0 : fn 0 = .error e)
    (hr : isRetryableMsg e.message = false) :
    retryWithBackoff fn jitterAt maxRetries initialDelayMs =
      { result := .error e, delays := [], calls := 1 } := by
  obtain ⟨fuel, rfl⟩ : ∃ fuel, maxRetries = fuel + 1 := ⟨maxRetries - 1, by omega⟩
  unfold retryWithBackoff
  simp [retryAux, h0, hr]

/-- Concrete operation failing with a non-retryable message on every attempt. -/
def c8Fn : Nat → Except JsError Nat := fun _ => .error { message := "bad key" }

/-- Witness for C8: the non-retryable failure "bad key" settles after one
invocation with no delays. -/
theorem c8_non_retryable_immediate_witness :
    retryWithBackoff c8Fn (fun _ => 0) 5 1000 =
      { result := .error { message := "bad key" }, delays := [], calls := 1 } :=
  c8_non_retryable_immediate c8Fn (fun _ => 0) 5 1000 { message := "bad key" }
    (by decide) rfl (by decide)

/-- Claim C9: an operation that fails with retryable messages on attempts 1
and 2 and succeeds on attempt 3, run under the retry helper with 5 attempts,
settles with the success value after exactly two delay waits, the delay
before 0-indexed retry `i` being `initialDelayMs * 2 ^ i` plus the jitter
value, itself below `maxJitterMs` (the jitter stream models
`Math.floor(Math.random() * maxJitterMs)`, uniform on `[0, maxJitterMs)`). -/
theorem c9_retry_succeeds_third_attempt {α : Type} (fn : Nat → Except JsError α)
    (jitterAt : Nat → Nat) (initialDelayMs maxJitterMs : Nat)
    (e0 e1 : JsError) (v : α)
    (h0 : fn 0 = .error e0) (h1 : fn 1 = .error e1)
    (hr0 : isRetryableMsg e0.message = true) (hr1 : isRetryableMsg e1.message = true)
    (h2 : fn 2 = .ok v) (hj : ∀ i, jitterAt i < maxJitterMs) :
    retryWithBackoff fn jitterAt 5 initialDelayMs =
      { result := .ok v,
        delays := [initialDelayMs * 2 ^ 0 + jitterAt 0, initialDelayMs * 2 ^ 1 + jitterAt 1],
        calls := 3 } ∧
    initialDelayMs * 2 ^ 0 + jitterAt 0 < initialDelayMs * 2 ^ 0 + maxJitterMs ∧
    initialDelayMs * 2 ^ 1 + jitterAt 1 < initialDelayMs * 2 ^ 1 + maxJitterMs := by
  refine ⟨?_, ?_, ?_⟩
  · unfold retryWithBackoff
    simp [retryAux, h0, h1, h2, hr0, hr1]
  · have := hj 0; omega
  · have := hj 1; omega

/-- Concrete operation with retryable failures on the first two attempts and
success on the third. -/
def c9Fn : Nat → Except JsError Nat := fun k =>
  if k == 0 then .error { message := "HTTP 503" }
  else if k == 1 then .error { message := "The model is overloaded" }
  else .ok 42

/-- Witness for C9 at `c9Fn`, constant jitter 11, base delay 1000, jitter
bound 1200. -/
theorem c9_retry_succeeds_third_attempt_witness :
    retryWithBackoff c9Fn (fun _ => 11) 5 1000 =
      { result := .ok 42,
        delays := [1000 * 2 ^ 0 + 11, 1000 * 2 ^ 1 + 11], calls := 3 } ∧
    1000 * 2 ^ 0 + 11 < 1000 * 2 ^ 0 + 1200 ∧
    1000 * 2 ^ 1 + 11 < 1000 * 2 ^ 1 + 1200 := by
  have h := c9_retry_succeeds_third_attempt c9Fn (fun _ => 11) 1000 1200
    { message := "HTTP 503" } { message := "The model is overloaded" } 42
    rfl rfl (by decide) (by decide) rfl (fun i => by norm_num)
  simpa using h

/-- Claim C4 counterexample: at the absent (null/undefined) response, the
error message of the extractor is "No response from AI model", not the claimed
"AI model returned no response". -/
theorem c4_counterexample :
    extractAIText none = .error { message := "No response from AI model" } ∧
    "No response from AI model" ≠ "AI model returned no response" :=
  ⟨rfl, by decide⟩

/-- Claim C4 (amended): the AI Text Extractor fails exactly when the input
response is absent, with the error message "No response from AI model", and
returns a string (via `extractShapes`) on every present response shape. -/
theorem c4_amended_extractor_total :
    (∀ resp : Option AIResponse, (∃ e, extractAIText resp = .error e) ↔ resp = none) ∧
    extractAIText none = .error { message := "No response from AI model" } ∧
    ∀ r : AIResponse, extractAIText (some r) = .ok (extractShapes r) := by
  refine ⟨?_, rfl, fun r => rfl⟩
  intro resp
  cases resp <;> simp [extractAIText]

/-- A payload value for the C1 scenario (contents irrelevant to the claim). -/
def c1Insights : Insights :=
  { salaryRanges :=
      [{ role := "Engineer", min := 50, max := 90, median := 70, location := "US" },
       { role := "Analyst", min := 40, max := 80, median := 60, location := "US" },
       { role := "Manager", min := 60, max := 100, median := 80, location := "US" },
       { role := "Architect", min := 70, max := 120, median := 95, location := "US" },
       { role := "Consultant", min := 55, max := 95, median := 75, location := "US" }]
    growthRate := 6
    demandLevel := some "HIGH"
    marketOutlook := some "POSITIVE"
    topSkills := ["s1", "s2", "s3", "s4", "s5"]
    keyTrends := ["t1", "t2", "t3", "t4", "t5"]
    recommendedSkills := ["r1"] }

/-- Opaque stand-in for the JSON text of `c1Insights`. -/
def c1GoodJson : String := "c1-good-json"

/-- C1 scenario environment: the first AI invocation rejects with the
retryable message "503 Service Unavailable"; every later invocation would
succeed with a parseable payload. -/
def c1Env : GenEnv :=
  { generateContent := fun k _ =>
      if k == 0 then .error { message := "503 Service Unavailable" }
      else .ok (some (.textFn c1GoodJson))
    parseJson := fun s => if s == c1GoodJson then some c1Insights else none }

/-- Claim C1 counterexample: in an environment whose first AI invocation
fails with the retryable message "503 Service Unavailable" and whose second
would succeed, `generateAIInsights` settles with that very error after a
single AI invocation — whereas the retry policy the claim names
(`retryWithBackoff` with 5 attempts) would have reached the success on the
second attempt, as the last conjunct shows on the same oracle. -/
theorem c1_counterexample :
    (generateAIInsights c1Env "tech").1 = .error { message := "503 Service Unavailable" } ∧
    (generateAIInsights c1Env "tech").2 = 1 ∧
    isRetryableMsg "503 Service Unavailable" = true ∧
    (retryWithBackoff (fun k => c1Env.generateContent k (insightPromptOnDemand "tech"))
        (fun _ => 0) 5 1000).result = .ok (some (.textFn c1GoodJson)) :=
  ⟨rfl, rfl, by decide, rfl⟩

/-- Claim C1 (amended): `generateAIInsights` performs exactly one AI
invocation, with no retry wrapper: whatever error that single invocation
rejects with — retryable or not — is the settled result of the generator. -/
theorem c1_amended_single_call (env : GenEnv) (industry : String) (e : JsError)
    (h : env.generateContent 0 (insightPromptOnDemand industry) = .error e) :
    (generateAIInsights env industry).2 = 1 ∧
    (generateAIInsights env industry).1 = .error e := by
  unfold generateAIInsights
  simp [h]

/-- Witness for the amended C1 at the concrete scenario environment. -/
theorem c1_amended_single_call_witness :
    (generateAIInsights c1Env "tech").2 = 1 ∧
    (generateAIInsights c1Env "tech").1 = .error { message := "503 Service Unavailable" } :=
  c1_amended_single_call c1Env "tech" { message := "503 Service Unavailable" } rfl

/-- AI capabilities for the C2 scenario: the single generation call succeeds
with a parseable payload (reusing the C1 payload value, whose content is
irrelevant here). -/
def c2Gen : GenEnv :=
  { generateContent := fun _ _ => .ok (some (.textFn c1GoodJson))
    parseJson := fun s => if s == c1GoodJson then some c1Insights else none }

/-- C2 scenario environment for the losing request of the race: its read saw
no insight row for "tech" (`industryInsight := none`), and by the time its
`create` ran, the winning request had inserted the row, so the store rejects
with the P2002 unique-constraint error. -/
def c2Env : DashEnv :=
  { auth := some "uid-1"
    findUser := fun uid =>
      if uid == "uid-1" then some { industry := some "tech", industryInsight := none }
      else none
    gen := c2Gen
    createInsight := fun _ => .error (p2002 "`industry`")
    now := 1000 }

/-- Claim C2 counterexample: the losing call of the create race settles with
the propagated P2002 unique-constraint error — it does not re-fetch and
return the record of the winner. -/
theorem c2_counterexample :
    getIndustryInsights c2Env = .error (p2002 "`industry`") ∧
    (p2002 "`industry`").code = some "P2002" :=
  ⟨rfl, rfl⟩

/-- Claim C2 (amended): when the on-demand resolver finds no insight row,
generates a payload, and its `create` is rejected (in particular by the
uniqueness violation of a lost race), `getIndustryInsights` propagates that
rejection unchanged — there is no catch and no re-fetch on this path.  (The
re-fetch-on-P2002 recovery exists only for User-row creation, see
`findOrCreateUser`.) -/
theorem c2_amended_losing_call_propagates (env : DashEnv) (uid : String)
    (user : UserView) (industry : String) (v : NormInsights) (e : JsError)
    (hauth : env.auth = some uid) (hfind : env.findUser uid = some user)
    (hind : user.industry = some industry) (hnone : user.industryInsight = none)
    (hgen : (generateAIInsights env.gen industry).1 = .ok v)
    (hcreate : env.createInsight (createRecord industry v env.now) = .error e) :
    getIndustryInsights env = .error e := by
  unfold getIndustryInsights
  simp [hauth, hfind, hind, hnone, hgen, hcreate]

/-- Witness for the amended C2 at the concrete race environment. -/
theorem c2_amended_losing_call_propagates_witness :
    getIndustryInsights c2Env = .error (p2002 "`industry`") :=
  c2_amended_losing_call_propagates c2Env "uid-1"
    { industry := some "tech", industryInsight := none } "tech"
    { salaryRanges := c1Insights.salaryRanges
      growthRate := c1Insights.growthRate
      demandLevel := "HIGH"
      marketOutlook := "POSITIVE"
      topSkills := c1Insights.topSkills
      keyTrends := c1Insights.keyTrends
      recommendedSkills := c1Insights.recommendedSkills }
    (p2002 "`industry`") rfl rfl rfl rfl rfl rfl

/-- C3 scenario environment: the session is valid but the user lookup
rejects with a plain storage failure. -/
def c3OnboardEnv : OnboardEnv :=
  { auth := some "uid-1"
    findUserIndustry := fun _ => .error { message := "Connection to database failed" } }

/-- Claim C3 counterexample: `getUserOnboardingStatus` — an operation inside
the scope of the claim that is neither the secondary quiz tip call nor the
scheduled per-industry step — maps a storage failure to the normal-looking
success `\x7b isOnboarded: false \x7d` instead of propagating it. -/
theorem c3_counterexample :
    c3OnboardEnv.findUserIndustry "uid-1" =
      .error { message := "Connection to database failed" } ∧
    getUserOnboardingStatus c3OnboardEnv = .ok { isOnboarded := false } :=
  ⟨rfl, rfl⟩

/-- Claim C3 (amended): the silent-discard exceptions additionally include
`getUserOnboardingStatus`, which maps ANY rejection of its user lookup to
the success `\x7b isOnboarded: false \x7d`; the persistence step of
`saveQuizResult`, by contrast, does propagate a storage failure, rewrapped
as "Failed to save quiz result: ...". -/
theorem c3_amended_error_policy :
    (∀ (env : OnboardEnv) (uid : String) (e : JsError),
      env.auth = some uid →
      env.findUserIndustry uid = .error e →
      getUserOnboardingStatus env = .ok { isOnboarded := false }) ∧
    (∀ (env : SaveQuizEnv) (uid : String) (user : UserRec)
      (questions : List Question) (answers : List String) (score : Int) (e : JsError),
      env.auth = some uid →
      env.findUser uid = some user →
      (∀ d, env.createAssessment d = .error e) →
      saveQuizResult env questions answers score =
        .error { message := "Failed to save quiz result: " ++ e.message }) := by
  constructor
  · intro env uid e hauth hfail
    unfold getUserOnboardingStatus
    simp [hauth, hfail]
  · intro env uid user questions answers score e hauth hfind hcreate
    unfold saveQuizResult
    simp [hauth, hfind, hcreate]

/-- A user row for the C3 witness. -/
def c3User : UserRec :=
  { id := "u-1", clerkUserId := "uid-1", name := some "A B", email := some "a@b.c",
    imageUrl := none, industry := some "tech", experience := none, bio := none,
    skills := [] }

/-- C3 witness environment for the quiz path: assessment persistence is down. -/
def c3QuizEnv : SaveQuizEnv :=
  { auth := some "uid-1"
    findUser := fun uid => if uid == "uid-1" then some c3User else none
    tipAi := fun _ _ => .ok (some (.textFn "study more"))
    jitterAt := fun _ => 0
    createAssessment := fun _ => .error { message := "db write refused" } }

/-- Witness for the amended C3: both conjuncts applied at concrete
environments. -/
theorem c3_amended_error_policy_witness :
    getUserOnboardingStatus c3OnboardEnv = .ok { isOnboarded := false } ∧
    saveQuizResult c3QuizEnv [] [] 10 =
      .error { message := "Failed to save quiz result: " ++ "db write refused" } :=
  ⟨c3_amended_error_policy.1 c3OnboardEnv "uid-1"
      { message := "Connection to database failed" } rfl rfl,
    c3_amended_error_policy.2 c3QuizEnv "uid-1" c3User [] [] 10
      { message := "db write refused" } rfl rfl (fun _ => rfl)⟩

/-- A pre-existing insight row for the C5 scenario. -/
def c5Rec (industry : String) : InsightRecord :=
  { industry := industry, salaryRanges := [], growthRate := 0,
    demandLevel := "MEDIUM", marketOutlook := "NEUTRAL", topSkills := [],
    keyTrends := [], recommendedSkills := [], lastUpdated := 0, nextUpdate := 0 }

/-- The payload parsed for the healthy industries of the C5 scenario. -/
def c5Payload : Insights :=
  { salaryRanges := c1Insights.salaryRanges, growthRate := 3,
    demandLevel := some "high", marketOutlook := some "positive",
    topSkills := ["a", "b", "c", "d", "e"], keyTrends := ["k1", "k2", "k3", "k4", "k5"],
    recommendedSkills := ["r"] }

/-- C5 scenario environment: the AI answers with parseable text for every
industry except "beta", whose answer fails `JSON.parse`. -/
def c5Env : JobEnv :=
  { stepAiWrap := fun p =>
      if p == insightPromptJob "beta" then .ok (some (.textFn "NOT JSON"))
      else .ok (some (.textFn "c5-good-json"))
    parseJson := fun s => if s == "c5-good-json" then some c5Payload else none }

set_option maxRecDepth 10000 in
/-- Claim C5: the scheduled job always settles successfully whatever the
per-industry outcomes; and in the concrete 3-industry scenario where the text of the 2nd
industry fails to parse, the 1st and 3rd rows are updated, the 2nd is
left untouched, and the parse failure is exactly what the processing step of the 2nd
industry rejects with. -/
theorem c5_partial_failure_isolation :
    (∀ (env : JobEnv) (db : List InsightRecord) (now : Nat),
      ∃ db', runJob env db now = .ok db') ∧
    runJob c5Env [c5Rec "alpha", c5Rec "beta", c5Rec "gamma"] 2000 =
      .ok [applyUpdate (c5Rec "alpha") c5Payload 2000, c5Rec "beta",
           applyUpdate (c5Rec "gamma") c5Payload 2000] ∧
    processIndustry c5Env [c5Rec "alpha", c5Rec "beta", c5Rec "gamma"] 2000 "beta" =
      .error jsonSyntaxError :=
  ⟨fun _ _ _ => ⟨_, rfl⟩, rfl, rfl⟩

/-- The valid `demandLevel` values (spec section 3 / Prisma enum). -/
def enumDemand : List String := ["HIGH", "MEDIUM", "LOW"]

/-- The valid `marketOutlook` values (spec section 3 / Prisma enum). -/
def enumOutlook : List String := ["POSITIVE", "NEUTRAL", "NEGATIVE"]

/-- A parsed AI payload that honours the demands of the prompt: at least 5 salary
ranges, skills and trends, and enum fields present whose uppercase forms are
valid enum values. -/
def goodPayload (v : Insights) : Prop :=
  5 ≤ v.salaryRanges.length ∧ 5 ≤ v.topSkills.length ∧ 5 ≤ v.keyTrends.length ∧
  (∃ d, v.demandLevel = some d ∧ strUpper d ∈ enumDemand) ∧
  (∃ m, v.marketOutlook = some m ∧ strUpper m ∈ enumOutlook)

/-- The stored-record shape the claim asserts. -/
def goodStored (r : InsightRecord) : Prop :=
  5 ≤ r.salaryRanges.length ∧ 5 ≤ r.topSkills.length ∧ 5 ≤ r.keyTrends.length ∧
  r.demandLevel ∈ enumDemand ∧ r.marketOutlook ∈ enumOutlook ∧
  r.nextUpdate - r.lastUpdated = sevenDaysMs

/-- A pre-existing row for the C6 scenario. -/
def c6Start : InsightRecord :=
  { industry := "tech", salaryRanges := [], growthRate := 0,
    demandLevel := "MEDIUM", marketOutlook := "NEUTRAL", topSkills := [],
    keyTrends := [], recommendedSkills := [], lastUpdated := 0, nextUpdate := 0 }

/-- A syntactically valid payload that ignores the demands of the prompt: only 2
salary ranges and invalid enum words. -/
def c6BadPayload : Insights :=
  { salaryRanges :=
      [{ role := "Dev", min := 1, max := 2, median := 2, location := "US" },
       { role := "Ops", min := 1, max := 2, median := 2, location := "US" }],
    growthRate := 4, demandLevel := some "weird", marketOutlook := some "odd",
    topSkills := ["a", "b", "c", "d", "e"], keyTrends := ["t1", "t2", "t3", "t4", "t5"],
    recommendedSkills := ["r"] }

/-- C6 scenario environment: the AI answer parses into `c6BadPayload`. -/
def c6Env : JobEnv :=
  { stepAiWrap := fun _ => .ok (some (.textFn "c6-json"))
    parseJson := fun s => if s == "c6-json" then some c6BadPayload else none }

/-- The row the C6 scenario run stores. -/
def c6Stored : InsightRecord := applyUpdate c6Start c6BadPayload 3000

/-- Claim C6 counterexample: a generation that succeeds end to end (the job
run updates the row) stores a record with only 2 salary ranges and with
`demandLevel`/`marketOutlook` outside the claimed enum sets — the code never
validates lengths or enum membership, it stores whatever parses. -/
theorem c6_counterexample :
    runJob c6Env [c6Start] 3000 = .ok [c6Stored] ∧
    c6Stored.salaryRanges.length = 2 ∧
    ¬ 5 ≤ c6Stored.salaryRanges.length ∧
    c6Stored.demandLevel = "WEIRD" ∧
    c6Stored.demandLevel ∉ enumDemand ∧
    c6Stored.marketOutlook = "ODD" ∧
    c6Stored.marketOutlook ∉ enumOutlook :=
  ⟨rfl, rfl, by decide, rfl, by decide, rfl, by decide⟩

/-- When the uppercase form of `s` is a nonempty-word enum value, the job
normalization keeps exactly that uppercase form. -/
lemma jobNormEnum_eq_upper {s : String} {l : List String} (hnil : "" ∉ l)
    (h : strUpper s ∈ l) : jobNormEnum (some s) = some (strUpper s) := by
  unfold jobNormEnum
  by_cases hs : s = ""
  · subst hs
    have hu : strUpper "" = "" := rfl
    rw [hu] at h
    exact absurd h hnil
  · simp [hs]

/-- When the uppercase form of `s` is a nonempty-word enum value, the
on-demand normalization keeps exactly that uppercase form. -/
lemma onDemandNormEnum_eq_upper {s : String} {l : List String} (dflt : String)
    (hnil : "" ∉ l) (h : strUpper s ∈ l) :
    onDemandNormEnum (some s) dflt = strUpper s := by
  unfold onDemandNormEnum
  by_cases hs : strUpper s = ""
  · rw [hs] at h
    exact absurd h hnil
  · simp [hs]

/-- Claim C6 (amended): the code enforces none of the length or enum-set
constraints; they hold for the stored record exactly when the parsed AI
payload already honours them, while the 7-day spacing of
`nextUpdate`/`lastUpdated` is set by the code itself.  Stated for both
storage paths: the row update of the scheduled job, and the data record the
on-demand creation paths persist. -/
theorem c6_amended_stored_shape :
    (∀ (env : JobEnv) (db : List InsightRecord) (now : Nat) (ind : String)
       (db' : List InsightRecord),
      (∀ s v, env.parseJson s = some v → goodPayload v) →
      processIndustry env db now ind = .ok db' →
      ∀ r ∈ db', r.industry = ind → goodStored r) ∧
    (∀ (env : GenEnv) (industry : String) (v : NormInsights) (now : Nat),
      (∀ s w, env.parseJson s = some w → goodPayload w) →
      (generateAIInsights env industry).1 = .ok v →
      goodStored (createRecord industry v now)) := by
  constructor
  · intro env db now ind db' hparse hproc r hr hrind
    unfold processIndustry at hproc
    split at hproc
    · cases hproc
    · split at hproc
      · cases hproc
      · split at hproc
        · cases hproc
        · rename_i ins hp
          obtain ⟨hs1, hs2, hs3, ⟨d, hd, hdmem⟩, ⟨m, hm, hmmem⟩⟩ := hparse _ _ hp
          unfold updateInsight at hproc
          split at hproc
          · cases hproc
            obtain ⟨r0, hr0mem, hr0eq⟩ := List.mem_map.mp hr
            by_cases h0 : r0.industry = ind
            · rw [if_pos (by simpa using h0)] at hr0eq
              subst hr0eq
              refine ⟨hs1, hs2, hs3, ?_, ?_, ?_⟩
              · show ((jobNormEnum ins.demandLevel).getD r0.demandLevel) ∈ enumDemand
                rw [hd, jobNormEnum_eq_upper (by decide) hdmem]
                exact hdmem
              · show ((jobNormEnum ins.marketOutlook).getD r0.marketOutlook) ∈ enumOutlook
                rw [hm, jobNormEnum_eq_upper (by decide) hmmem]
                exact hmmem
              · show (now + sevenDaysMs) - now = sevenDaysMs
                omega
            · rw [if_neg (by simpa using h0)] at hr0eq
              subst hr0eq
              exact absurd hrind h0
          · cases hproc
  · intro env industry v now hparse hgen
    simp only [generateAIInsights] at hgen
    cases hE : env.generateContent 0 (insightPromptOnDemand industry) with
    | error e =>
      rw [hE] at hgen
      dsimp only at hgen
      cases hgen
    | ok ropt =>
      rw [hE] at hgen
      cases ropt with
      | none =>
        dsimp only at hgen
        cases hgen
      | some r =>
        dsimp only at hgen
        cases hp : env.parseJson (cleanText (extractTextOnDemand r)) with
        | none =>
          rw [hp] at hgen
          dsimp only at hgen
          cases hgen
        | some ins =>
          rw [hp] at hgen
          dsimp only at hgen
          cases hgen
          obtain ⟨hs1, hs2, hs3, ⟨d, hd, hdmem⟩, ⟨m, hm, hmmem⟩⟩ := hparse _ _ hp
          refine ⟨hs1, hs2, hs3, ?_, ?_, ?_⟩
          · show onDemandNormEnum ins.demandLevel "MEDIUM" ∈ enumDemand
            rw [hd, onDemandNormEnum_eq_upper _ (by decide) hdmem]
            exact hdmem
          · show onDemandNormEnum ins.marketOutlook "NEUTRAL" ∈ enumOutlook
            rw [hm, onDemandNormEnum_eq_upper _ (by decide) hmmem]
            exact hmmem
          · show (now + sevenDaysMs) - now = sevenDaysMs
            omega

/-- A payload honouring the demands of the prompt, for the C6 witness. -/
def c6GoodPayload : Insights :=
  { salaryRanges := c1Insights.salaryRanges, growthRate := 5,
    demandLevel := some "High", marketOutlook := some "Positive",
    topSkills := ["a", "b", "c", "d", "e"], keyTrends := ["t1", "t2", "t3", "t4", "t5"],
    recommendedSkills := ["r"] }

/-- A pre-existing row for the C6 witness run. -/
def c6WitnessStart : InsightRecord :=
  { industry := "tech", salaryRanges := [], growthRate := 0,
    demandLevel := "LOW", marketOutlook := "NEGATIVE", topSkills := [],
    keyTrends := [], recommendedSkills := [], lastUpdated := 0, nextUpdate := 0 }

/-- Job environment for the C6 witness: every parse yields `c6GoodPayload`. -/
def c6WitnessJobEnv : JobEnv :=
  { stepAiWrap := fun _ => .ok (some (.textFn "c6w-json"))
    parseJson := fun s => if s == "c6w-json" then some c6GoodPayload else none }

/-- Generator environment for the C6 witness. -/
def c6WitnessGenEnv : GenEnv :=
  { generateContent := fun _ _ => .ok (some (.textFn "c6w-json"))
    parseJson := fun s => if s == "c6w-json" then some c6GoodPayload else none }

/-- Every payload the C6-witness parse capability can produce honours the
demands of the prompt. -/
lemma c6WitnessParse :
    ∀ s v, (if s == "c6w-json" then some c6GoodPayload else none) = some v →
      goodPayload v := by
  intro s v h
  split at h
  · cases h
    exact ⟨by decide, by decide, by decide, ⟨"High", rfl, by decide⟩,
      ⟨"Positive", rfl, by decide⟩⟩
  · cases h

/-- The normalized payload `generateAIInsights` returns in the C6 witness
environment. -/
def c6WitnessNorm : NormInsights :=
  { salaryRanges := c6GoodPayload.salaryRanges
    growthRate := c6GoodPayload.growthRate
    demandLevel := "HIGH"
    marketOutlook := "POSITIVE"
    topSkills := c6GoodPayload.topSkills
    keyTrends := c6GoodPayload.keyTrends
    recommendedSkills := c6GoodPayload.recommendedSkills }

/-- Witness for the amended C6: both storage paths applied at concrete
compliant runs. -/
theorem c6_amended_stored_shape_witness :
    goodStored (applyUpdate c6WitnessStart c6GoodPayload 700) ∧
    goodStored (createRecord "tech" c6WitnessNorm 700) :=
  ⟨c6_amended_stored_shape.1 c6WitnessJobEnv [c6WitnessStart] 700 "tech"
      [applyUpdate c6WitnessStart c6GoodPayload 700] c6WitnessParse rfl
      (applyUpdate c6WitnessStart c6GoodPayload 700) (List.mem_singleton.mpr rfl) rfl,
    c6_amended_stored_shape.2 c6WitnessGenEnv "tech" c6WitnessNorm 700
      c6WitnessParse rfl⟩

/-- Claim C7: on the profile-update path, the user-record update and the
insight creation run in one transaction configured with the 10 s timeout; if
insight generation rejects inside it, `updateUser` settles with the wrapped
error and the relational state — in particular the profile fields of the user —
is exactly what it was before the call. -/
theorem c7_transaction_rollback (env : UpdateEnv) (db : Db) (data : UpdateData)
    (uid : String) (user : UserRec) (industry : String) (e : JsError)
    (hauth : env.auth = some uid)
    (hdata : data.industry = some industry)
    (hne : (trimChars industry == "") = false)
    (hfind : db.users.find? (fun w => w.clerkUserId == uid) = some user)
    (hnoins : db.insights.find? (fun r => r.industry == industry) = none)
    (hgen : (generateAIInsights env.gen industry).1 = .error e) :
    updateUser env db data =
      (.error { message := "Failed to update profile: " ++ e.message }, db) ∧
    updateUserTimeoutMs = 10000 := by
  constructor
  · unfold updateUser findOrCreateUser runTransaction txBodyUpdateUser
    simp [hauth, hdata, hne, hfind, hnoins, hgen]
  · rfl

/-- Generator environment for the C7 witness: the AI call always rejects
with a non-retryable message. -/
def c7GenEnv : GenEnv :=
  { generateContent := fun _ _ => .error { message := "quota exceeded" }
    parseJson := fun _ => none }

/-- The existing user row of the C7 witness. -/
def c7User : UserRec :=
  { id := "u-7", clerkUserId := "uid-7", name := some "A B", email := some "a@b.c",
    imageUrl := none, industry := none, experience := none, bio := none, skills := [] }

/-- The initial relational state of the C7 witness. -/
def c7Db : Db := { users := [c7User], insights := [] }

/-- The call environment of the C7 witness. -/
def c7Env : UpdateEnv :=
  { auth := some "uid-7", currentUser := none, gen := c7GenEnv, now := 900 }

/-- The profile-update payload of the C7 witness. -/
def c7Data : UpdateData :=
  { industry := some "tech", experience := some 3, bio := some "bio", skills := ["s"] }

/-- Witness for C7 at the concrete failing-generation scenario. -/
theorem c7_transaction_rollback_witness :
    updateUser c7Env c7Db c7Data =
      (.error { message := "Failed to update profile: " ++ "quota exceeded" }, c7Db) ∧
    updateUserTimeoutMs = 10000 :=
  c7_transaction_rollback c7Env c7Db c7Data "uid-7" c7User "tech"
    { message := "quota exceeded" } rfl rfl (by decide) rfl rfl rfl

/-- Does the string start with an uppercase character? -/
def firstIsUpper (s : String) : Bool :=
  match s.data with
  | [] => false
  | c :: _ => c.isUpper

/-- At the concrete input "led a team of 5 engineers", for every possible
verb pick, the local polish prepends that verb (a member of the fixed list,
capitalized), ends the text with a period, and yields a nonempty string. -/
lemma polishLedProp :
    ∀ i, i < actionVerbs.length →
      actionVerbs.getD i "" ∈ actionVerbs ∧
      strLeads (polishContentLocally i "led a team of 5 engineers" "x")
        (actionVerbs.getD i "") = true ∧
      firstIsUpper (actionVerbs.getD i "") = true ∧
      endsWithChar (polishContentLocally i "led a team of 5 engineers" "x") '.' = true ∧
      polishContentLocally i "led a team of 5 engineers" "x" ≠ "" := by
  decide

/-- Claim C10: with a valid session and existing user, `improveWithAI`
always settles successfully; when the AI round rejects (retries exhausted,
non-retryable error, or null response) it returns the deterministic local
fallback, and at the input "led a team of 5 engineers" that fallback starts
with a capitalized action verb from the fixed list, ends with terminal
punctuation, and is nonempty. -/
theorem c10_resume_fallback :
    (∀ (env : ResumeEnv) (uid : String) (user : ResumeUser) (current ty : String),
      env.auth = some uid → env.findUser uid = some user →
      ∃ s, improveWithAI env current ty = .ok s) ∧
    (∀ (env : ResumeEnv) (uid : String) (user : ResumeUser) (current ty : String)
       (e : JsError),
      env.auth = some uid → env.findUser uid = some user →
      (retryWithBackoff
          (fun k => env.ai k (resumePrompt (jsTemplateOptStr user.industry) current ty))
          env.jitterAt 5 1000).result = .error e →
      env.randIdx < actionVerbs.length →
      improveWithAI env current ty = .ok (polishContentLocally env.randIdx current ty) ∧
      (current = "led a team of 5 engineers" →
        (∃ v ∈ actionVerbs,
          strLeads (polishContentLocally env.randIdx current ty) v = true ∧
          firstIsUpper v = true) ∧
        endsWithChar (polishContentLocally env.randIdx current ty) '.' = true ∧
        polishContentLocally env.randIdx current ty ≠ "")) := by
  constructor
  · intro env uid user current ty hauth hfind
    unfold improveWithAI
    rw [hauth]
    dsimp only
    rw [hfind]
    dsimp only
    cases hres : (retryWithBackoff
        (fun k => env.ai k (resumePrompt (jsTemplateOptStr user.industry) current ty))
        env.jitterAt 5 1000).result with
    | error e => exact ⟨_, rfl⟩
    | ok ropt =>
      cases ropt with
      | none => exact ⟨_, rfl⟩
      | some r => exact ⟨_, rfl⟩
  · intro env uid user current ty e hauth hfind hretry hidx
    constructor
    · unfold improveWithAI
      rw [hauth]
      dsimp only
      rw [hfind]
      dsimp only
      rw [hretry]
    · intro hcur
      subst hcur
      have hty : polishContentLocally env.randIdx "led a team of 5 engineers" ty =
          polishContentLocally env.randIdx "led a team of 5 engineers" "x" := rfl
      rw [hty]
      obtain ⟨hmem, hlead, hup, hdot, hne⟩ := polishLedProp env.randIdx hidx
      exact ⟨⟨actionVerbs.getD env.randIdx "", hmem, hlead, hup⟩, hdot, hne⟩

/-- Resume environment for the C10 witness: the AI always rejects with a
non-retryable error and the verb pick of the fallback is index 2 ("Built"). -/
def c10Env : ResumeEnv :=
  { auth := some "uid-x"
    findUser := fun uid =>
      if uid == "uid-x" then some { industry := some "tech", industryInsight := none }
      else none
    ai := fun _ _ => .error { message := "bad gateway" }
    jitterAt := fun _ => 0
    randIdx := 2 }

/-- Witness for C10 at the concrete failing-AI environment and the claimed
input. -/
theorem c10_resume_fallback_witness :
    (∃ s, improveWithAI c10Env "led a team of 5 engineers" "experience" = .ok s) ∧
    improveWithAI c10Env "led a team of 5 engineers" "experience" =
      .ok (polishContentLocally 2 "led a team of 5 engineers" "experience") ∧
    endsWithChar (polishContentLocally 2 "led a team of 5 engineers" "experience") '.' = true ∧
    polishContentLocally 2 "led a team of 5 engineers" "experience" ≠ "" := by
  have h1 := c10_resume_fallback.1 c10Env "uid-x"
    { industry := some "tech", industryInsight := none }
    "led a team of 5 engineers" "experience" rfl rfl
  have h2 := c10_resume_fallback.2 c10Env "uid-x"
    { industry := some "tech", industryInsight := none }
    "led a team of 5 engineers" "experience" { message := "bad gateway" }
    rfl rfl rfl (by decide)
  exact ⟨h1, h2.1, (h2.2 rfl).2.1, (h2.2 rfl).2.2⟩

end Sensai
